import Mathlib

/-!
Shallow embedding of the killallgit CLI core (src/main.rs): the resource
cleanup decision engine for git worktrees and branches.  External
collaborators (the git subprocesses, the regex crate, the dialoguer
prompts, the filesystem and the environment) are modelled as fields of a
`Backend` record; every core function from the source is translated as a
Lean function that returns the observable effect trace (a `List Event`)
together with its `Result` value.  Styling (ANSI colors, emoji glyphs and
quote characters inside messages) is dropped from output lines, since it
never affects control flow.
-/

namespace Killallgit

/-- Result of a git command execution (src/main.rs `enum GitCommandResult`). -/
inductive GitCommandResult where
  | success : GitCommandResult
  | failure : String → GitCommandResult
deriving DecidableEq, Repr

/-- Branch scope (src/main.rs `enum BranchScope`): local branches or the
branches of one configured remote. -/
inductive BranchScope where
  | Local : BranchScope
  | Remote : String → BranchScope
deriving DecidableEq, Repr

/-- Observable side effects of one command invocation, in order: backend
listing calls, stdout lines, git mutation subcommands, per-item deletion
outcomes, and interactive prompts. -/
inductive Event where
  | listLocalBranches : Event
  | listRemoteBranches : String → Event
  | listWorktrees : Event
  | listRemotes : Event
  | output : String → Event
  | gitCmd : List String → Event
  | outcome : GitCommandResult → Event
  | promptSelect : Event
  | promptMultiSelect : Event
  | promptConfirm : Event
  | promptInput : Event
  | createWorktreeCall : String → Event
deriving DecidableEq, Repr

/-- The external collaborators of the core, fixed for one command
invocation: terminal attachment, the git subprocess listings, the
configured remotes, the KILLALLGIT_PROTECTED environment variable, the
regex crate (compilation either fails with a message or yields an
`is_match` predicate), the git mutation runner, worktree path resolution
and existence, and the answers the operator gives to each dialoguer
prompt. -/
structure Backend where
  isTerminal : Bool
  localBranches : Except String (List String)
  branchRLines : Except String (List String)
  worktreeListLines : Except String (List String)
  currentDir : String
  remotes : List String
  env : Option String
  compile : String → Except String (String → Bool)
  runGit : List String → GitCommandResult
  getPathResult : String → Except String String
  pathExists : String → Bool
  multiSelect : Option (List Nat)
  scopeSelect : Option Nat
  confirmAnswer : Nat
  createWorktree : String → Except String String

/-- Rust `str::starts_with`, modelled on the character list of the string. -/
def strStartsWith (s pre : String) : Bool := pre.data.isPrefixOf s.data

/-- Drop the first `n` characters of a string (the tail that Rust
`strip_prefix` leaves after a prefix of `n` characters). -/
def strDropChars (s : String) (n : Nat) : String := String.mk (s.data.drop n)

/-- Split a character list at the characters satisfying `p`, keeping the
(possibly empty) pieces between separators, like Rust `str::split`. -/
def splitChars (p : Char → Bool) : List Char → List String
  | [] => [""]
  | c :: rest =>
    if p c then "" :: splitChars p rest
    else
      match splitChars p rest with
      | [] => [String.mk [c]]
      | s :: ss => (String.mk [c] ++ s) :: ss

/-- Whether `needle` occurs as a contiguous run inside `hay`. -/
def isInfixList (needle : List Char) : List Char → Bool
  | [] => needle.isEmpty
  | c :: rest => needle.isPrefixOf (c :: rest) || isInfixList needle rest

/-- Rust `str::contains` for a substring needle (used for the HEAD filter). -/
def strContainsSub (s pat : String) : Bool := isInfixList pat.data s.data

/-- Rust `str::trim`: strip leading and trailing whitespace. -/
def strTrim (s : String) : String :=
  String.mk
    (((s.data.dropWhile Char.isWhitespace).reverse.dropWhile Char.isWhitespace).reverse)

/-- Rust `str::split_whitespace`: split on whitespace, discarding empty
pieces. -/
def split_whitespace (s : String) : List String :=
  (splitChars Char.isWhitespace s.data).filter (fun p => p != "")

/-- Rust `Path::file_name` for a unix path string: the last component
after discarding empty components and `.`, unless it is `..`. -/
def rustFileName (s : String) : Option String :=
  let comps := (splitChars (fun c => c == '/') s.data).filter (fun c => c != "" && c != ".")
  match comps.getLast? with
  | some c => if c == ".." then none else some c
  | none => none

/-- serde_json escaping of one character inside a JSON string literal. -/
def jsonEscapeChar (c : Char) : String :=
  if c = '"' then "\\\""
  else if c = '\\' then "\\\\"
  else if c = '\n' then "\\n"
  else if c = '\r' then "\\r"
  else if c = '\t' then "\\t"
  else if c.toNat < 32 then
    let lo := c.toNat % 16
    let hi := c.toNat / 16
    let hexDigit := fun (n : Nat) =>
      if n < 10 then Char.ofNat (48 + n) else Char.ofNat (87 + n)
    "\\u00" ++ String.mk [hexDigit hi, hexDigit lo]
  else String.mk [c]

/-- serde_json escaping of a whole string. -/
def jsonEscape (s : String) : String := String.join (s.data.map jsonEscapeChar)

/-- src/main.rs `print_json_array`: the single stdout line emitted for a
list of items in JSON mode (serde_json rendering of a string slice). -/
def print_json_array (items : List String) : String :=
  "[" ++ String.intercalate "," (items.map (fun s => "\"" ++ jsonEscape s ++ "\"")) ++ "]"

/-- src/main.rs `handle_empty_result`: output for an empty result set in
json / dry-run / plain modes. -/
def handle_empty_result (json dry_run : Bool) (message : String) : List Event :=
  if json then [Event.output (print_json_array [])]
  else if !dry_run then [Event.output message]
  else []

/-- src/main.rs `output_dry_run`: dry-run rendering of the item list,
either one JSON array line or one plain line per item. -/
def output_dry_run (items : List String) (json : Bool) : List Event :=
  if json then [Event.output (print_json_array items)]
  else items.map (fun i => Event.output i)

/-- src/main.rs `display_protected_items`: the protected-skipped notice,
nothing when the list is empty. -/
def display_protected_items (items : List String) (label : String) : List Event :=
  if items.isEmpty then []
  else Event.output ("Protected " ++ label ++ " (skipped):")
        :: items.map (fun i => Event.output i)

/-- src/main.rs `display_items_for_deletion`: the found-items header and
one line per item. -/
def display_items_for_deletion (items : List String) (item_type ctx : String) : List Event :=
  Event.output ("Found " ++ toString items.length ++ " " ++ item_type ++ " " ++ ctx ++ ":")
    :: items.map (fun i => Event.output i)

/-- src/main.rs `print_deletion_summary`: the deleted count line plus a
failed count line when failures occurred. -/
def print_deletion_summary (deleted failed : Nat) (item_type target : String) : List Event :=
  Event.output ("Deleted " ++ toString deleted ++ " " ++ item_type ++ " from " ++ target)
    :: (if failed > 0 then
          [Event.output ("Failed to delete " ++ toString failed ++ " " ++ item_type)]
        else [])

/-- src/main.rs `confirm_deletion`: one confirm prompt; the operator
answer 1 (the second choice) means proceed. -/
def confirm_deletion (B : Backend) (_item_type : String) (_count : Nat) (_target : String) :
    List Event × Bool :=
  ([Event.promptConfirm], B.confirmAnswer == 1)

/-- src/main.rs `interactive_multi_select`: one multi-select prompt;
`none` models escape (cancellation), an empty index list models zero
selections; otherwise the chosen items by index. -/
def interactive_multi_select (B : Backend) (items : List String) (item_type : String) :
    List Event × Option (List String) :=
  match B.multiSelect with
  | some s =>
    if !s.isEmpty then
      ([Event.promptMultiSelect], some (s.filterMap (fun i => items.get? i)))
    else
      ([Event.promptMultiSelect, Event.output ("No " ++ item_type ++ " selected.")], none)
  | none => ([Event.promptMultiSelect, Event.output "Selection cancelled."], none)

/-- src/main.rs `is_protected_branch` default list. -/
def DEFAULT_PROTECTED : List String := ["main", "master", "develop", "development"]

/-- src/main.rs `is_protected_branch`: built-in names, else the
comma-separated, per-entry-trimmed KILLALLGIT_PROTECTED override
(modelled as the `env` argument). -/
def is_protected_branch (env : Option String) (name : String) : Bool :=
  if DEFAULT_PROTECTED.contains name then true
  else
    match env with
    | some extra =>
      ((splitChars (fun c => c == ',') extra.data).map (fun s => strTrim s)).any
        (fun s => s == name)
    | none => false

/-- src/main.rs `parse_branch_pattern`: scan the configured remotes in
order; the first remote whose name followed by a slash is a prefix of the
pattern wins and the prefix is stripped; otherwise the scope is local and
the pattern is unchanged.  The configured-remote list that the source
obtains from `get_configured_remotes` is passed in as `remotes`. -/
def parse_branch_pattern (remotes : List String) (pattern : String) : BranchScope × String :=
  match remotes with
  | [] => (BranchScope.Local, pattern)
  | remote :: rest =>
    let pfx := remote ++ "/"
    if strStartsWith pattern pfx then
      (BranchScope.Remote remote, strDropChars pattern pfx.data.length)
    else
      parse_branch_pattern rest pattern

/-- src/main.rs `get_local_branches`: the local branch short names,
excluding the current branch and empty lines.  The git subprocess and its
current-branch filter are the `listLocalBranches` collaborator of the
spec, modelled by the `localBranches` backend field. -/
def get_local_branches (B : Backend) : List Event × Except String (List String) :=
  ([Event.listLocalBranches], B.localBranches)

/-- src/main.rs `get_remote_branches`: parse the `git branch -r` lines
(the `branchRLines` backend field), keeping the trimmed lines that start
with the remote prefix and do not mention HEAD, with the prefix
stripped. -/
def get_remote_branches (B : Backend) (remote : String) :
    List Event × Except String (List String) :=
  ([Event.listRemoteBranches remote],
   match B.branchRLines with
   | Except.error _ => Except.error "Failed to list remote branches"
   | Except.ok lines =>
     let pfx := remote ++ "/"
     Except.ok (((lines.map (fun l => strTrim l)).filter
         (fun line => strStartsWith line pfx && !(strContainsSub line "HEAD"))).map
       (fun line =>
         if strStartsWith line pfx then strDropChars line pfx.data.length else line)))

/-- src/main.rs `get_existing_worktrees`: parse the `git worktree list`
lines, taking the basename of the first whitespace-separated field of
each line, then dropping the literal name bare, empty names, and the name
of the current working directory. -/
def get_existing_worktrees (B : Backend) : List Event × Except String (List String) :=
  ([Event.listWorktrees],
   match B.worktreeListLines with
   | Except.error _ => Except.error "Failed to list worktrees"
   | Except.ok lines =>
     let current_worktree_name := (rustFileName B.currentDir).getD ""
     Except.ok ((lines.filterMap (fun line =>
         match split_whitespace line with
         | [] => none
         | p :: _ => rustFileName p)).filter
       (fun name => name != "bare" && !(name == "") && name != current_worktree_name)))

/-- Outcome of one worktree deletion attempt, as src/main.rs
`delete_worktrees` produces it: a path-resolution failure or a missing
path is recorded as a failure without invoking git; otherwise the result
of `git worktree remove` (with `--force` when forced). -/
def worktree_outcome (B : Backend) (force : Bool) (name : String) : GitCommandResult :=
  match B.getPathResult name with
  | Except.error e => GitCommandResult.failure e
  | Except.ok path =>
    if B.pathExists path then
      B.runGit (if force then ["worktree", "remove", "--force", path]
                else ["worktree", "remove", path])
    else GitCommandResult.failure "path not found"

/-- Per-item trace of one worktree deletion attempt. -/
def worktree_item_trace (B : Backend) (force : Bool) (n : String) : List Event :=
  match B.getPathResult n with
  | Except.error e => [Event.outcome (GitCommandResult.failure e)]
  | Except.ok path =>
    if B.pathExists path then
      let args := if force then ["worktree", "remove", "--force", path]
                  else ["worktree", "remove", path]
      [Event.output ("Deleting " ++ n ++ "... "), Event.gitCmd args,
       Event.outcome (B.runGit args)]
    else
      [Event.output ("Deleting " ++ n ++ "... "),
       Event.outcome (GitCommandResult.failure "path not found")]

/-- Result of one batch deletion: the effect trace, the two loop counters
that `print_deletion_summary` reports, and the function result (always
`ok` in the source). -/
structure BatchRun where
  trace : List Event
  deleted : Nat
  failed : Nat
  result : Except String Unit

/-- Loop body of src/main.rs `delete_worktrees`, threading the `deleted`
and `failed` counters through the item list. -/
def delete_worktrees_go (B : Backend) (force : Bool) (deleted failed : Nat) :
    List String → List Event × Nat × Nat
  | [] => ([], deleted, failed)
  | name :: rest =>
    match B.getPathResult name with
    | Except.error e =>
      let (t, d, f) := delete_worktrees_go B force deleted (failed + 1) rest
      (Event.outcome (GitCommandResult.failure e) :: t, d, f)
    | Except.ok path =>
      let ev0 := Event.output ("Deleting " ++ name ++ "... ")
      if B.pathExists path then
        let args := if force then ["worktree", "remove", "--force", path]
                    else ["worktree", "remove", path]
        match B.runGit args with
        | GitCommandResult.success =>
          let (t, d, f) := delete_worktrees_go B force (deleted + 1) failed rest
          (ev0 :: Event.gitCmd args :: Event.outcome GitCommandResult.success :: t, d, f)
        | GitCommandResult.failure e =>
          let (t, d, f) := delete_worktrees_go B force deleted (failed + 1) rest
          (ev0 :: Event.gitCmd args :: Event.outcome (GitCommandResult.failure e) :: t, d, f)
      else
        let (t, d, f) := delete_worktrees_go B force deleted (failed + 1) rest
        (ev0 :: Event.outcome (GitCommandResult.failure "path not found") :: t, d, f)

/-- src/main.rs `delete_worktrees`: attempt every worktree in order,
counting outcomes, then print the summary; always returns `ok`. -/
def delete_worktrees (B : Backend) (worktrees : List String) (force : Bool) : BatchRun :=
  match delete_worktrees_go B force 0 0 worktrees with
  | (t, deleted, failed) =>
    { trace := t ++ print_deletion_summary deleted failed "worktrees" "local"
      deleted := deleted
      failed := failed
      result := Except.ok () }

/-- Loop body of src/main.rs `delete_local_branches`. -/
def delete_local_branches_go (B : Backend) (flag : String) (deleted failed : Nat) :
    List String → List Event × Nat × Nat
  | [] => ([], deleted, failed)
  | b :: rest =>
    let ev0 := Event.output ("Deleting " ++ b ++ "... ")
    let args := ["branch", flag, b]
    match B.runGit args with
    | GitCommandResult.success =>
      let (t, d, f) := delete_local_branches_go B flag (deleted + 1) failed rest
      (ev0 :: Event.gitCmd args :: Event.outcome GitCommandResult.success :: t, d, f)
    | GitCommandResult.failure e =>
      let (t, d, f) := delete_local_branches_go B flag deleted (failed + 1) rest
      (ev0 :: Event.gitCmd args :: Event.outcome (GitCommandResult.failure e) :: t, d, f)

/-- src/main.rs `delete_local_branches`: `git branch -D` when forced,
`git branch -d` otherwise, one attempt per branch in order; always
returns `ok`. -/
def delete_local_branches (B : Backend) (branches : List String) (force : Bool) : BatchRun :=
  let flag := if force then "-D" else "-d"
  match delete_local_branches_go B flag 0 0 branches with
  | (t, deleted, failed) =>
    { trace := t ++ print_deletion_summary deleted failed "local branches" "local"
      deleted := deleted
      failed := failed
      result := Except.ok () }

/-- Loop body of src/main.rs `delete_remote_branches`. -/
def delete_remote_branches_go (B : Backend) (remote : String) (deleted failed : Nat) :
    List String → List Event × Nat × Nat
  | [] => ([], deleted, failed)
  | b :: rest =>
    let ev0 := Event.output ("Deleting " ++ b ++ "... ")
    let args := ["push", remote, "--delete", b]
    match B.runGit args with
    | GitCommandResult.success =>
      let (t, d, f) := delete_remote_branches_go B remote (deleted + 1) failed rest
      (ev0 :: Event.gitCmd args :: Event.outcome GitCommandResult.success :: t, d, f)
    | GitCommandResult.failure e =>
      let (t, d, f) := delete_remote_branches_go B remote deleted (failed + 1) rest
      (ev0 :: Event.gitCmd args :: Event.outcome (GitCommandResult.failure e) :: t, d, f)

/-- src/main.rs `delete_remote_branches`: `git push remote --delete` per
branch in order; always returns `ok`. -/
def delete_remote_branches (B : Backend) (branches : List String) (remote : String) : BatchRun :=
  match delete_remote_branches_go B remote 0 0 branches with
  | (t, deleted, failed) =>
    { trace := t ++ print_deletion_summary deleted failed "branches" remote
      deleted := deleted
      failed := failed
      result := Except.ok () }

/-- src/main.rs `clean_worktrees_by_pattern`: compile the pattern, filter
the (already listed) worktree names, and either report the empty result,
render the dry run, or confirm (unless forced) and batch-delete.  No
protection filtering happens on this path. -/
def clean_worktrees_by_pattern (B : Backend) (pattern : String) (worktrees : List String)
    (force dry_run json : Bool) : List Event × Except String Unit :=
  match B.compile pattern with
  | Except.error e => ([], Except.error ("Invalid regex pattern: " ++ e))
  | Except.ok isMatch =>
    let matching := worktrees.filter isMatch
    if matching.isEmpty then
      (handle_empty_result json dry_run
        ("No worktrees matching " ++ pattern ++ " found."), Except.ok ())
    else if dry_run then
      (output_dry_run matching json, Except.ok ())
    else
      let t0 := display_items_for_deletion matching "worktrees" ("matching " ++ pattern)
      if !force then
        match confirm_deletion B "worktrees" matching.length "local" with
        | (t1, ok) =>
          if !ok then (t0 ++ t1 ++ [Event.output "Operation cancelled."], Except.ok ())
          else
            let r := delete_worktrees B matching force
            (t0 ++ t1 ++ r.trace, r.result)
      else
        let r := delete_worktrees B matching force
        (t0 ++ r.trace, r.result)

/-- src/main.rs `clean_worktrees_interactive`: multi-select over the
listed worktrees, then confirm (unless forced) and batch-delete. -/
def clean_worktrees_interactive (B : Backend) (worktrees : List String) (force : Bool) :
    List Event × Except String Unit :=
  match interactive_multi_select B worktrees "worktrees" with
  | (t0, none) => (t0, Except.ok ())
  | (t0, some selected) =>
    let t1 := display_items_for_deletion selected "worktrees" "selected for deletion"
    if !force then
      match confirm_deletion B "worktrees" selected.length "local" with
      | (t2, ok) =>
        if !ok then (t0 ++ t1 ++ t2 ++ [Event.output "Operation cancelled."], Except.ok ())
        else
          let r := delete_worktrees B selected force
          (t0 ++ t1 ++ t2 ++ r.trace, r.result)
    else
      let r := delete_worktrees B selected force
      (t0 ++ t1 ++ r.trace, r.result)

/-- src/main.rs `clean_worktrees`: list the worktrees; on an empty list
report and stop; with a pattern delegate to the pattern path; without a
pattern either dry-run-print everything or go interactive.  There is no
terminal check on this path. -/
def clean_worktrees (B : Backend) (pattern : Option String) (force dry_run json : Bool) :
    List Event × Except String Unit :=
  match get_existing_worktrees B with
  | (t0, Except.error e) => (t0, Except.error e)
  | (t0, Except.ok worktrees) =>
    if worktrees.isEmpty then
      (t0 ++ handle_empty_result json dry_run "No worktrees found.", Except.ok ())
    else
      match pattern with
      | some p =>
        match clean_worktrees_by_pattern B p worktrees force dry_run json with
        | (t1, r) => (t0 ++ t1, r)
      | none =>
        if dry_run then (t0 ++ output_dry_run worktrees json, Except.ok ())
        else
          match clean_worktrees_interactive B worktrees force with
          | (t1, r) => (t0 ++ t1, r)

/-- src/main.rs `clean_all_worktrees`: the `--all` flag path, deleting
every listed worktree after dry-run or confirmation handling. -/
def clean_all_worktrees (B : Backend) (force dry_run json : Bool) :
    List Event × Except String Unit :=
  match get_existing_worktrees B with
  | (t0, Except.error e) => (t0, Except.error e)
  | (t0, Except.ok worktrees) =>
    if worktrees.isEmpty then
      (t0 ++ handle_empty_result json dry_run "No worktrees found.", Except.ok ())
    else if dry_run then
      (t0 ++ output_dry_run worktrees json, Except.ok ())
    else
      let t1 := Event.output "Preparing to remove all worktrees..."
                  :: worktrees.map (fun w => Event.output w)
      if !force then
        match confirm_deletion B "worktrees" worktrees.length "local" with
        | (t2, ok) =>
          if !ok then (t0 ++ t1 ++ t2 ++ [Event.output "Operation cancelled."], Except.ok ())
          else
            let r := delete_worktrees B worktrees force
            (t0 ++ t1 ++ t2 ++ r.trace, r.result)
      else
        let r := delete_worktrees B worktrees force
        (t0 ++ t1 ++ r.trace, r.result)

/-- src/main.rs `clean_local_branches_by_pattern`: list the local
branches first, then compile the pattern, filter, partition into
protected and deletable, and either render the dry run (deletable only)
or display, confirm and batch-delete. -/
def clean_local_branches_by_pattern (B : Backend) (pattern : String)
    (force dry_run json : Bool) : List Event × Except String Unit :=
  match get_local_branches B with
  | (t0, Except.error e) => (t0, Except.error e)
  | (t0, Except.ok branches) =>
    if branches.isEmpty then
      (t0 ++ handle_empty_result json dry_run "No local branches found.", Except.ok ())
    else
      match B.compile pattern with
      | Except.error e => (t0, Except.error ("Invalid regex pattern: " ++ e))
      | Except.ok isMatch =>
        let matching := branches.filter isMatch
        if matching.isEmpty then
          (t0 ++ handle_empty_result json dry_run
            ("No local branches matching " ++ pattern ++ " found."), Except.ok ())
        else
          let pd := matching.partition (fun b => is_protected_branch B.env b)
          if dry_run then
            (t0 ++ output_dry_run pd.2 json, Except.ok ())
          else
            let t1 := display_protected_items pd.1 "branches"
            if pd.2.isEmpty then
              (t0 ++ t1 ++ [Event.output "No deletable branches (all matched are protected)."],
               Except.ok ())
            else
              let t2 := display_items_for_deletion pd.2 "local branches" ("matching " ++ pattern)
              if !force then
                match confirm_deletion B "branches" pd.2.length "local" with
                | (t3, ok) =>
                  if !ok then
                    (t0 ++ t1 ++ t2 ++ t3 ++ [Event.output "Operation cancelled."], Except.ok ())
                  else
                    let r := delete_local_branches B pd.2 force
                    (t0 ++ t1 ++ t2 ++ t3 ++ r.trace, r.result)
              else
                let r := delete_local_branches B pd.2 force
                (t0 ++ t1 ++ t2 ++ r.trace, r.result)

/-- src/main.rs `clean_remote_branches_by_pattern`: as the local variant,
over the listed branches of one remote, deleting by remote push. -/
def clean_remote_branches_by_pattern (B : Backend) (pattern remote : String)
    (force dry_run json : Bool) : List Event × Except String Unit :=
  match get_remote_branches B remote with
  | (t0, Except.error e) => (t0, Except.error e)
  | (t0, Except.ok branches) =>
    if branches.isEmpty then
      (t0 ++ handle_empty_result json dry_run
        ("No remote branches found on " ++ remote ++ "."), Except.ok ())
    else
      match B.compile pattern with
      | Except.error e => (t0, Except.error ("Invalid regex pattern: " ++ e))
      | Except.ok isMatch =>
        let matching := branches.filter isMatch
        if matching.isEmpty then
          (t0 ++ handle_empty_result json dry_run
            ("No remote branches matching " ++ pattern ++ " found on " ++ remote ++ "."),
           Except.ok ())
        else
          let pd := matching.partition (fun b => is_protected_branch B.env b)
          if dry_run then
            (t0 ++ output_dry_run pd.2 json, Except.ok ())
          else
            let t1 := display_protected_items pd.1 "branches"
            if pd.2.isEmpty then
              (t0 ++ t1 ++ [Event.output "No deletable branches (all matched are protected)."],
               Except.ok ())
            else
              let t2 := display_items_for_deletion pd.2 "remote branches"
                          ("matching " ++ pattern ++ " on " ++ remote)
              if !force then
                match confirm_deletion B "branches" pd.2.length remote with
                | (t3, ok) =>
                  if !ok then
                    (t0 ++ t1 ++ t2 ++ t3 ++ [Event.output "Operation cancelled."], Except.ok ())
                  else
                    let r := delete_remote_branches B pd.2 remote
                    (t0 ++ t1 ++ t2 ++ t3 ++ r.trace, r.result)
              else
                let r := delete_remote_branches B pd.2 remote
                (t0 ++ t1 ++ t2 ++ r.trace, r.result)

/-- src/main.rs `clean_local_branches_interactive`: partition all local
branches by protection, show protected ones as informational only, then
multi-select over the deletable ones, confirm and delete. -/
def clean_local_branches_interactive (B : Backend) (force : Bool) :
    List Event × Except String Unit :=
  match get_local_branches B with
  | (t0, Except.error e) => (t0, Except.error e)
  | (t0, Except.ok branches) =>
    let pd := branches.partition (fun b => is_protected_branch B.env b)
    let t1 := display_protected_items pd.1 "branches (not selectable)"
    if pd.2.isEmpty then
      (t0 ++ t1 ++ [Event.output "No deletable local branches (all are protected)."],
       Except.ok ())
    else
      match interactive_multi_select B pd.2 "branches" with
      | (t2, none) => (t0 ++ t1 ++ t2, Except.ok ())
      | (t2, some selected) =>
        let t3 := display_items_for_deletion selected "local branches" "selected for deletion"
        if !force then
          match confirm_deletion B "branches" selected.length "local" with
          | (t4, ok) =>
            if !ok then
              (t0 ++ t1 ++ t2 ++ t3 ++ t4 ++ [Event.output "Operation cancelled."], Except.ok ())
            else
              let r := delete_local_branches B selected force
              (t0 ++ t1 ++ t2 ++ t3 ++ t4 ++ r.trace, r.result)
        else
          let r := delete_local_branches B selected force
          (t0 ++ t1 ++ t2 ++ t3 ++ r.trace, r.result)

/-- src/main.rs `clean_remote_branches_interactive`: the remote analog of
the local interactive flow. -/
def clean_remote_branches_interactive (B : Backend) (remote : String) (force : Bool) :
    List Event × Except String Unit :=
  match get_remote_branches B remote with
  | (t0, Except.error e) => (t0, Except.error e)
  | (t0, Except.ok branches) =>
    let pd := branches.partition (fun b => is_protected_branch B.env b)
    let t1 := display_protected_items pd.1 "branches (not selectable)"
    if pd.2.isEmpty then
      (t0 ++ t1 ++ [Event.output
        ("No deletable remote branches on " ++ remote ++ " (all are protected).")],
       Except.ok ())
    else
      match interactive_multi_select B pd.2 "branches" with
      | (t2, none) => (t0 ++ t1 ++ t2, Except.ok ())
      | (t2, some selected) =>
        let t3 := display_items_for_deletion selected "remote branches" "selected for deletion"
        if !force then
          match confirm_deletion B "branches" selected.length remote with
          | (t4, ok) =>
            if !ok then
              (t0 ++ t1 ++ t2 ++ t3 ++ t4 ++ [Event.output "Operation cancelled."], Except.ok ())
            else
              let r := delete_remote_branches B selected remote
              (t0 ++ t1 ++ t2 ++ t3 ++ t4 ++ r.trace, r.result)
        else
          let r := delete_remote_branches B selected remote
          (t0 ++ t1 ++ t2 ++ t3 ++ r.trace, r.result)

/-- src/main.rs `clean_branches_interactive`: ask for the scope (local,
or one of the configured remotes) and delegate.  An in-range answer is
guaranteed by the prompt library; an out-of-range index would panic in
the source and is modelled as an error. -/
def clean_branches_interactive (B : Backend) (force : Bool) :
    List Event × Except String Unit :=
  let t0 := [Event.listRemotes, Event.promptSelect]
  match B.scopeSelect with
  | none => (t0 ++ [Event.output "Selection cancelled."], Except.ok ())
  | some 0 =>
    match clean_local_branches_interactive B force with
    | (t, r) => (t0 ++ t, r)
  | some (n + 1) =>
    match B.remotes.get? n with
    | some remote =>
      match clean_remote_branches_interactive B remote force with
      | (t, r) => (t0 ++ t, r)
    | none => (t0, Except.error "remote index out of bounds")

/-- src/main.rs `clean_branches`: with a pattern, resolve its scope
against the configured remotes and delegate; without a pattern, either
dry-run-print the deletable local branches or go interactive. -/
def clean_branches (B : Backend) (pattern : Option String) (force dry_run json : Bool) :
    List Event × Except String Unit :=
  match pattern with
  | some p =>
    let t0 := [Event.listRemotes]
    match parse_branch_pattern B.remotes p with
    | (BranchScope.Local, bp) =>
      match clean_local_branches_by_pattern B bp force dry_run json with
      | (t, r) => (t0 ++ t, r)
    | (BranchScope.Remote remote, bp) =>
      match clean_remote_branches_by_pattern B bp remote force dry_run json with
      | (t, r) => (t0 ++ t, r)
  | none =>
    if dry_run then
      match get_local_branches B with
      | (t0, Except.error e) => (t0, Except.error e)
      | (t0, Except.ok branches) =>
        let deletable := branches.filter (fun b => !is_protected_branch B.env b)
        (t0 ++ output_dry_run deletable json, Except.ok ())
    else clean_branches_interactive B force

/-- src/main.rs `add_worktree`: filesystem preparation, `git worktree
add` and path canonicalization are the `createWorktree` collaborator; on
success the absolute path is printed. -/
def add_worktree (B : Backend) (name : String) : List Event × Except String Unit :=
  match B.createWorktree name with
  | Except.error e =>
    ([Event.createWorktreeCall name], Except.error ("Failed to create worktree: " ++ e))
  | Except.ok p => ([Event.createWorktreeCall name, Event.output p], Except.ok ())

/-- Loop of src/main.rs `interactive_menu`, driven by a finite script of
operator answers: per iteration the main-menu choice, the submenu choice
and the text typed at the input prompt.  An exhausted script models the
operator choosing Exit. -/
def interactive_menu_loop (B : Backend) :
    List (Option Nat × Option Nat × String) → List Event × Except String Unit
  | [] => ([], Except.ok ())
  | (mainSel, subSel, input) :: rest =>
    let t0 := [Event.promptSelect]
    match mainSel with
    | some 0 =>
      let t1 := t0 ++ [Event.promptSelect]
      match subSel with
      | some 0 =>
        match add_worktree B input with
        | (t2, r) => (t1 ++ [Event.promptInput] ++ t2, r)
      | _ =>
        match interactive_menu_loop B rest with
        | (t2, r) => (t1 ++ t2, r)
    | some 1 =>
      let t1 := t0 ++ [Event.promptSelect]
      match subSel with
      | some 0 =>
        match clean_worktrees B none false false false with
        | (t2, r) => (t1 ++ t2, r)
      | some 1 =>
        match clean_branches B none false false false with
        | (t2, r) => (t1 ++ t2, r)
      | _ =>
        match interactive_menu_loop B rest with
        | (t2, r) => (t1 ++ t2, r)
    | _ => (t0, Except.ok ())

/-- The fatal message of the stdin terminal check in src/main.rs
`interactive_menu` (quote characters dropped). -/
def requires_terminal_message : String :=
  "Interactive mode requires a terminal. Use command-line arguments instead.\nRun killallgit --help for available commands."

/-- src/main.rs `interactive_menu`: the only terminal check in the
program; without a terminal it fails before any prompt, otherwise it runs
the menu loop. -/
def interactive_menu (B : Backend) (script : List (Option Nat × Option Nat × String)) :
    List Event × Except String Unit :=
  if !B.isTerminal then
    ([], Except.error requires_terminal_message)
  else interactive_menu_loop B script

/-- The stdout lines of an effect trace. -/
def outputsOf (t : List Event) : List String :=
  t.filterMap (fun e => match e with | Event.output s => some s | _ => none)

/-- The per-item deletion outcomes recorded in an effect trace. -/
def outcomesOf (t : List Event) : List GitCommandResult :=
  t.filterMap (fun e => match e with | Event.outcome r => some r | _ => none)

/-- Whether a deletion outcome is a success. -/
def isSuccess : GitCommandResult → Bool
  | GitCommandResult.success => true
  | GitCommandResult.failure _ => false

/-- The stdout lines a dry run is specified to produce for a given item
list: the single JSON array line in JSON mode, one plain line per item
otherwise. -/
def dry_run_lines (items : List String) (json : Bool) : List String :=
  if json then [print_json_array items] else items

/-- Scope resolution written from the words of the spec: the first
configured remote (in backend order) whose name followed by a slash is a
prefix of the pattern yields the remote scope with the prefix stripped;
otherwise the scope is local and the pattern is returned unchanged. -/
def resolveSpec (remotes : List String) (pattern : String) : BranchScope × String :=
  match remotes.find? (fun r => strStartsWith pattern (r ++ "/")) with
  | some r => (BranchScope.Remote r, strDropChars pattern (r ++ "/").data.length)
  | none => (BranchScope.Local, pattern)

/-- A regex matcher for a literal pattern with substring-search
semantics, standing in for the regex crate on literal patterns in the
concrete backends below. -/
def subStrMatcher (pat : String) : String → Bool := fun s => strContainsSub s pat

/-- A concrete backend for witnesses: two local branches (one protected),
one worktree, every prompt declined, every git call succeeding, and
literal-substring regex compilation. -/
def demoBackend : Backend where
  isTerminal := true
  localBranches := Except.ok ["feature/a", "main"]
  branchRLines := Except.ok ["origin/feature/a", "origin/main"]
  worktreeListLines := Except.ok ["/repo/.worktrees/proj/feature-w abc123 [feature-w]"]
  currentDir := "/repo/proj"
  remotes := ["origin"]
  env := none
  compile := fun pat => Except.ok (subStrMatcher pat)
  runGit := fun _ => GitCommandResult.success
  getPathResult := fun n => Except.ok ("/repo/.worktrees/proj/" ++ n)
  pathExists := fun _ => true
  multiSelect := none
  scopeSelect := none
  confirmAnswer := 0
  createWorktree := fun n => Except.ok ("/repo/.worktrees/proj/" ++ n)

/-- A concrete backend whose regex compilation always fails and whose
listings are all empty. -/
def emptyRepoBackend : Backend where
  isTerminal := true
  localBranches := Except.ok []
  branchRLines := Except.ok []
  worktreeListLines := Except.ok []
  currentDir := "/repo/proj"
  remotes := []
  env := none
  compile := fun _ => Except.error "unclosed group"
  runGit := fun _ => GitCommandResult.success
  getPathResult := fun n => Except.ok ("/repo/.worktrees/proj/" ++ n)
  pathExists := fun _ => true
  multiSelect := none
  scopeSelect := none
  confirmAnswer := 0
  createWorktree := fun n => Except.ok ("/repo/.worktrees/proj/" ++ n)

/-- A concrete backend whose regex compilation always fails but whose
listings are non-empty. -/
def invalidPatternBackend : Backend where
  isTerminal := true
  localBranches := Except.ok ["feature/a"]
  branchRLines := Except.ok ["origin/feature/a"]
  worktreeListLines := Except.ok ["/repo/.worktrees/proj/feature-w abc123 [feature-w]"]
  currentDir := "/repo/proj"
  remotes := ["origin"]
  env := none
  compile := fun _ => Except.error "unclosed group"
  runGit := fun _ => GitCommandResult.success
  getPathResult := fun n => Except.ok ("/repo/.worktrees/proj/" ++ n)
  pathExists := fun _ => true
  multiSelect := none
  scopeSelect := none
  confirmAnswer := 0
  createWorktree := fun n => Except.ok ("/repo/.worktrees/proj/" ++ n)

/-- A concrete backend that is not attached to a terminal, with one
worktree listed and the multi-select prompt answered by escape. -/
def nonTerminalBackend : Backend where
  isTerminal := false
  localBranches := Except.ok ["feature/a"]
  branchRLines := Except.ok ["origin/feature/a"]
  worktreeListLines := Except.ok ["/repo/.worktrees/proj/feature-w abc123 [feature-w]"]
  currentDir := "/repo/proj"
  remotes := ["origin"]
  env := none
  compile := fun pat => Except.ok (subStrMatcher pat)
  runGit := fun _ => GitCommandResult.success
  getPathResult := fun n => Except.ok ("/repo/.worktrees/proj/" ++ n)
  pathExists := fun _ => true
  multiSelect := none
  scopeSelect := none
  confirmAnswer := 0
  createWorktree := fun n => Except.ok ("/repo/.worktrees/proj/" ++ n)

theorem outputsOf_append (s t : List Event) :
    outputsOf (s ++ t) = outputsOf s ++ outputsOf t := by
  simp [outputsOf]

theorem outputsOf_map_output (items : List String) :
    outputsOf (items.map (fun i => Event.output i)) = items := by
  induction items with
  | nil => rfl
  | cons a l ih => simp [outputsOf, List.filterMap_cons] at ih ⊢; exact ih

theorem print_json_array_nil : print_json_array [] = "[]" := rfl

theorem outputsOf_listLocal : outputsOf [Event.listLocalBranches] = [] := rfl

theorem outputsOf_output_dry_run (items : List String) (json : Bool) :
    outputsOf (output_dry_run items json) = dry_run_lines items json := by
  cases json with
  | false => simp [output_dry_run, dry_run_lines, outputsOf_map_output]
  | true => simp [output_dry_run, dry_run_lines, outputsOf, List.filterMap_cons]

theorem outputsOf_handle_empty_dry (json : Bool) (msg : String) :
    outputsOf (handle_empty_result json true msg) = dry_run_lines [] json := by
  cases json with
  | false => simp [handle_empty_result, dry_run_lines, outputsOf]
  | true => simp [handle_empty_result, dry_run_lines, outputsOf, List.filterMap_cons]

theorem local_dry_run_spec (B : Backend) (pattern : String) (isMatch : String → Bool)
    (branches : List String) (force json : Bool)
    (hc : B.compile pattern = Except.ok isMatch)
    (hb : B.localBranches = Except.ok branches) :
    outputsOf (clean_local_branches_by_pattern B pattern force true json).1
      = dry_run_lines ((branches.filter isMatch).filter
          (fun b => !is_protected_branch B.env b)) json := by
  simp only [clean_local_branches_by_pattern, get_local_branches, hb, hc]
  by_cases hbe : branches.isEmpty
  · have hb0 : branches = [] := by simpa using hbe
    subst hb0
    rw [if_pos hbe, outputsOf_append, outputsOf_handle_empty_dry]
    simp [outputsOf_listLocal]
  · simp only [hbe, if_false, Bool.false_eq_true]
    by_cases hme : (branches.filter isMatch).isEmpty
    · have hm0 : branches.filter isMatch = [] := by simpa using hme
      simp only [hme, if_true, if_false, Bool.false_eq_true]
      rw [outputsOf_append, outputsOf_handle_empty_dry, hm0]
      simp [outputsOf_listLocal]
    · simp only [hme, if_true, if_false, Bool.false_eq_true, if_pos,
        List.partition_eq_filter_filter]
      rw [outputsOf_append, outputsOf_output_dry_run]
      simp [outputsOf_listLocal, Function.comp]

theorem worktree_dry_run_spec (B : Backend) (pattern : String) (isMatch : String → Bool)
    (worktrees : List String) (force json : Bool)
    (hc : B.compile pattern = Except.ok isMatch) :
    outputsOf (clean_worktrees_by_pattern B pattern worktrees force true json).1
      = dry_run_lines (worktrees.filter isMatch) json := by
  simp only [clean_worktrees_by_pattern, hc]
  by_cases hme : (worktrees.filter isMatch).isEmpty
  · have hm0 : worktrees.filter isMatch = [] := by simpa using hme
    simp only [hme, if_true]
    rw [outputsOf_handle_empty_dry, hm0]
  · simp only [hme, if_true, if_false, Bool.false_eq_true]
    exact outputsOf_output_dry_run _ _

theorem local_dry_run_force_irrel (B : Backend) (pattern : String) (json force force' : Bool) :
    clean_local_branches_by_pattern B pattern force true json
      = clean_local_branches_by_pattern B pattern force' true json := rfl

theorem worktree_dry_run_force_irrel (B : Backend) (pattern : String)
    (worktrees : List String) (json force force' : Bool) :
    clean_worktrees_by_pattern B pattern worktrees force true json
      = clean_worktrees_by_pattern B pattern worktrees force' true json := rfl

theorem outputsOf_listRemote (remote : String) :
    outputsOf [Event.listRemoteBranches remote] = [] := rfl

theorem get_remote_branches_pair (B : Backend) (remote : String) (rbranches : List String)
    (hr : (get_remote_branches B remote).2 = Except.ok rbranches) :
    get_remote_branches B remote = ([Event.listRemoteBranches remote], Except.ok rbranches) := by
  rw [← hr]
  rfl

theorem remote_dry_run_spec (B : Backend) (pattern remote : String) (isMatch : String → Bool)
    (rbranches : List String) (force json : Bool)
    (hc : B.compile pattern = Except.ok isMatch)
    (hrb : (get_remote_branches B remote).2 = Except.ok rbranches) :
    outputsOf (clean_remote_branches_by_pattern B pattern remote force true json).1
      = dry_run_lines ((rbranches.filter isMatch).filter
          (fun b => !is_protected_branch B.env b)) json := by
  simp only [clean_remote_branches_by_pattern,
    get_remote_branches_pair B remote rbranches hrb, hc]
  by_cases hbe : rbranches.isEmpty
  · have hb0 : rbranches = [] := by simpa using hbe
    subst hb0
    rw [if_pos hbe, outputsOf_append, outputsOf_handle_empty_dry]
    simp [outputsOf_listRemote]
  · simp only [hbe, if_false, Bool.false_eq_true]
    by_cases hme : (rbranches.filter isMatch).isEmpty
    · have hm0 : rbranches.filter isMatch = [] := by simpa using hme
      simp only [hme, if_true, if_false, Bool.false_eq_true]
      rw [outputsOf_append, outputsOf_handle_empty_dry, hm0]
      simp [outputsOf_listRemote]
    · simp only [hme, if_true, if_false, Bool.false_eq_true, if_pos,
        List.partition_eq_filter_filter]
      rw [outputsOf_append, outputsOf_output_dry_run]
      simp [outputsOf_listRemote, Function.comp]

theorem remote_dry_run_force_irrel (B : Backend) (pattern remote : String)
    (json force force' : Bool) :
    clean_remote_branches_by_pattern B pattern remote force true json
      = clean_remote_branches_by_pattern B pattern remote force' true json := rfl

/-- C1 counterexample: the claim that no protected name ever appears in
dry-run output for any clean operation fails on worktrees.  The worktree
name main is protected by the policy, yet the worktree dry run for the
pattern main prints it, because `clean_worktrees_by_pattern` applies no
protection filtering. -/
theorem C1_counterexample :
    is_protected_branch demoBackend.env "main" = true ∧
    outputsOf (clean_worktrees_by_pattern demoBackend "main" ["main"] false true false).1
      = ["main"] := ⟨rfl, by decide⟩

/-- C1 (amended): for branch clean operations, local and remote alike,
the dry-run output (plain or JSON) equals the pattern-filtered names
minus the protected names, and for worktree clean operations it equals
the pattern-filtered names with no protection filtering; in all cases
the dry-run outcome is independent of the force flag. -/
theorem C1_dry_run_contract (B : Backend) (pattern remote : String) (isMatch : String → Bool)
    (branches rbranches worktrees : List String) (force force' json : Bool)
    (hc : B.compile pattern = Except.ok isMatch)
    (hb : B.localBranches = Except.ok branches)
    (hrb : (get_remote_branches B remote).2 = Except.ok rbranches) :
    outputsOf (clean_local_branches_by_pattern B pattern force true json).1
      = dry_run_lines ((branches.filter isMatch).filter
          (fun b => !is_protected_branch B.env b)) json
    ∧ clean_local_branches_by_pattern B pattern force true json
      = clean_local_branches_by_pattern B pattern force' true json
    ∧ outputsOf (clean_remote_branches_by_pattern B pattern remote force true json).1
      = dry_run_lines ((rbranches.filter isMatch).filter
          (fun b => !is_protected_branch B.env b)) json
    ∧ clean_remote_branches_by_pattern B pattern remote force true json
      = clean_remote_branches_by_pattern B pattern remote force' true json
    ∧ outputsOf (clean_worktrees_by_pattern B pattern worktrees force true json).1
      = dry_run_lines (worktrees.filter isMatch) json
    ∧ clean_worktrees_by_pattern B pattern worktrees force true json
      = clean_worktrees_by_pattern B pattern worktrees force' true json :=
  ⟨local_dry_run_spec B pattern isMatch branches force json hc hb,
   local_dry_run_force_irrel B pattern json force force',
   remote_dry_run_spec B pattern remote isMatch rbranches force json hc hrb,
   remote_dry_run_force_irrel B pattern remote json force force',
   worktree_dry_run_spec B pattern isMatch worktrees force json hc,
   worktree_dry_run_force_irrel B pattern worktrees json force force'⟩

/-- Witness for C1 (amended) at the concrete demo backend and the literal
pattern feature, over local branches, the branches of the remote origin,
and worktrees. -/
theorem C1_dry_run_contract_witness :
    outputsOf (clean_local_branches_by_pattern demoBackend "feature" false true false).1
      = dry_run_lines (((["feature/a", "main"] : List String).filter
          (subStrMatcher "feature")).filter
          (fun b => !is_protected_branch demoBackend.env b)) false
    ∧ clean_local_branches_by_pattern demoBackend "feature" false true false
      = clean_local_branches_by_pattern demoBackend "feature" true true false
    ∧ outputsOf
        (clean_remote_branches_by_pattern demoBackend "feature" "origin" false true false).1
      = dry_run_lines (((["feature/a", "main"] : List String).filter
          (subStrMatcher "feature")).filter
          (fun b => !is_protected_branch demoBackend.env b)) false
    ∧ clean_remote_branches_by_pattern demoBackend "feature" "origin" false true false
      = clean_remote_branches_by_pattern demoBackend "feature" "origin" true true false
    ∧ outputsOf (clean_worktrees_by_pattern demoBackend "feature" ["feature-w"] false true false).1
      = dry_run_lines ((["feature-w"] : List String).filter (subStrMatcher "feature")) false
    ∧ clean_worktrees_by_pattern demoBackend "feature" ["feature-w"] false true false
      = clean_worktrees_by_pattern demoBackend "feature" ["feature-w"] true true false :=
  C1_dry_run_contract demoBackend "feature" "origin" (subStrMatcher "feature")
    ["feature/a", "main"] ["feature/a", "main"] ["feature-w"] false true false rfl rfl rfl

/-- C2: scope resolution scans the configured remotes in the reported
order, returns the remote scope with the prefix stripped for the first
remote whose name plus slash is a prefix of the pattern, and the local
scope with the pattern unchanged otherwise; it is a total function, and
an empty remote list always yields the local scope. -/
theorem C2_scope_resolution (remotes : List String) (pattern : String) :
    parse_branch_pattern remotes pattern = resolveSpec remotes pattern
    ∧ parse_branch_pattern [] pattern = (BranchScope.Local, pattern) := by
  constructor
  · induction remotes with
    | nil => rfl
    | cons r rest ih =>
      simp only [parse_branch_pattern, resolveSpec, List.find?]
      cases h : strStartsWith pattern (r ++ "/") with
      | true => simp [h]
      | false => simp only [h]; exact ih
  · rfl

/-- C3: a name is protected exactly when it is one of the four built-in
names or equals, case-sensitively and after per-entry whitespace
trimming, one of the comma-separated entries of the override variable; a
name that merely contains a protected name, such as main-feature, is not
protected. -/
theorem C3_protection_policy (env : Option String) (name : String) :
    (is_protected_branch env name = true ↔
      (name = "main" ∨ name = "master" ∨ name = "develop" ∨ name = "development"
        ∨ ∃ e, env = some e ∧
            ∃ entry ∈ splitChars (fun c => c == ',') e.data, strTrim entry = name))
    ∧ is_protected_branch none "main-feature" = false := by
  constructor
  · cases env with
    | none => simp [is_protected_branch, DEFAULT_PROTECTED]
    | some e => simp [is_protected_branch, DEFAULT_PROTECTED, or_assoc]
  · rfl


theorem outcomesOf_append (s t : List Event) :
    outcomesOf (s ++ t) = outcomesOf s ++ outcomesOf t := by
  simp [outcomesOf]

theorem length_filter_add_length_filter_not {α : Type} (l : List α) (p : α → Bool) :
    (l.filter p).length + (l.filter (fun a => !p a)).length = l.length := by
  induction l with
  | nil => rfl
  | cons a t ih => cases ha : p a <;> simp [List.filter_cons, ha] <;> omega

theorem outcomesOf_summary (d f : Nat) (a b : String) :
    outcomesOf (print_deletion_summary d f a b) = [] := by
  by_cases hf : f > 0 <;> simp [print_deletion_summary, hf, outcomesOf, List.filterMap_cons]

theorem outcomesOf_flatten_single {step : String → GitCommandResult}
    (g : String → List Event) (h : ∀ n, outcomesOf (g n) = [step n]) :
    ∀ ws : List String, outcomesOf ((ws.map g).flatten) = ws.map step := by
  intro ws
  induction ws with
  | nil => rfl
  | cons n rest ih => simp [outcomesOf_append, h n, ih]

theorem delete_local_branches_go_eq (B : Backend) (flag : String) (bs : List String) :
    ∀ d f : Nat,
      delete_local_branches_go B flag d f bs
        = ((bs.map (fun b =>
              [Event.output ("Deleting " ++ b ++ "... "),
               Event.gitCmd ["branch", flag, b],
               Event.outcome (B.runGit ["branch", flag, b])])).flatten,
           d + ((bs.map (fun b => B.runGit ["branch", flag, b])).filter isSuccess).length,
           f + ((bs.map (fun b => B.runGit ["branch", flag, b])).filter
                 (fun r => !isSuccess r)).length) := by
  induction bs with
  | nil => intro d f; simp [delete_local_branches_go]
  | cons b rest ih =>
    intro d f
    simp only [delete_local_branches_go]
    cases hr : B.runGit ["branch", flag, b] with
    | success =>
      rw [ih (d + 1) f]
      simp [hr, isSuccess, List.filter_cons]
      omega
    | failure e =>
      rw [ih d (f + 1)]
      simp [hr, isSuccess, List.filter_cons]
      omega

theorem delete_remote_branches_go_eq (B : Backend) (remote : String) (bs : List String) :
    ∀ d f : Nat,
      delete_remote_branches_go B remote d f bs
        = ((bs.map (fun b =>
              [Event.output ("Deleting " ++ b ++ "... "),
               Event.gitCmd ["push", remote, "--delete", b],
               Event.outcome (B.runGit ["push", remote, "--delete", b])])).flatten,
           d + ((bs.map (fun b => B.runGit ["push", remote, "--delete", b])).filter
                 isSuccess).length,
           f + ((bs.map (fun b => B.runGit ["push", remote, "--delete", b])).filter
                 (fun r => !isSuccess r)).length) := by
  induction bs with
  | nil => intro d f; simp [delete_remote_branches_go]
  | cons b rest ih =>
    intro d f
    simp only [delete_remote_branches_go]
    cases hr : B.runGit ["push", remote, "--delete", b] with
    | success =>
      rw [ih (d + 1) f]
      simp [hr, isSuccess, List.filter_cons]
      omega
    | failure e =>
      rw [ih d (f + 1)]
      simp [hr, isSuccess, List.filter_cons]
      omega

theorem outcomesOf_worktree_item (B : Backend) (force : Bool) (n : String) :
    outcomesOf (worktree_item_trace B force n) = [worktree_outcome B force n] := by
  simp only [worktree_item_trace, worktree_outcome]
  cases hp : B.getPathResult n with
  | error e => simp [outcomesOf, List.filterMap_cons]
  | ok path =>
    by_cases hex : B.pathExists path <;>
      simp [hex, outcomesOf, List.filterMap_cons]

theorem delete_worktrees_go_eq (B : Backend) (force : Bool) (ws : List String) :
    ∀ d f : Nat,
      delete_worktrees_go B force d f ws
        = ((ws.map (worktree_item_trace B force)).flatten,
           d + ((ws.map (worktree_outcome B force)).filter isSuccess).length,
           f + ((ws.map (worktree_outcome B force)).filter (fun r => !isSuccess r)).length) := by
  induction ws with
  | nil => intro d f; simp [delete_worktrees_go]
  | cons n rest ih =>
    intro d f
    simp only [delete_worktrees_go]
    cases hp : B.getPathResult n with
    | error e =>
      rw [ih d (f + 1)]
      simp [worktree_item_trace, worktree_outcome, hp, isSuccess, List.filter_cons]
      omega
    | ok path =>
      by_cases hex : B.pathExists path
      · simp only [hex, if_true]
        cases hr : B.runGit (if force then ["worktree", "remove", "--force", path]
                             else ["worktree", "remove", path]) with
        | success =>
          rw [ih (d + 1) f]
          simp [worktree_item_trace, worktree_outcome, hp, hex, hr, isSuccess,
            List.filter_cons]
          omega
        | failure e =>
          rw [ih d (f + 1)]
          simp [worktree_item_trace, worktree_outcome, hp, hex, hr, isSuccess,
            List.filter_cons]
          omega
      · simp only [hex, if_false, Bool.false_eq_true]
        rw [ih d (f + 1)]
        simp [worktree_item_trace, worktree_outcome, hp, hex, isSuccess, List.filter_cons]
        omega


theorem outcomesOf_local_item (B : Backend) (flag : String) (b : String) :
    outcomesOf [Event.output ("Deleting " ++ b ++ "... "),
                Event.gitCmd ["branch", flag, b],
                Event.outcome (B.runGit ["branch", flag, b])]
      = [B.runGit ["branch", flag, b]] := by
  simp [outcomesOf, List.filterMap_cons]

theorem outcomesOf_remote_item (B : Backend) (remote : String) (b : String) :
    outcomesOf [Event.output ("Deleting " ++ b ++ "... "),
                Event.gitCmd ["push", remote, "--delete", b],
                Event.outcome (B.runGit ["push", remote, "--delete", b])]
      = [B.runGit ["push", remote, "--delete", b]] := by
  simp [outcomesOf, List.filterMap_cons]

theorem delete_worktrees_spec (B : Backend) (ws : List String) (force : Bool) :
    (delete_worktrees B ws force).result = Except.ok ()
    ∧ outcomesOf (delete_worktrees B ws force).trace = ws.map (worktree_outcome B force)
    ∧ (delete_worktrees B ws force).deleted
        = ((ws.map (worktree_outcome B force)).filter isSuccess).length
    ∧ (delete_worktrees B ws force).failed
        = ((ws.map (worktree_outcome B force)).filter (fun r => !isSuccess r)).length := by
  simp only [delete_worktrees, delete_worktrees_go_eq B force ws 0 0]
  refine ⟨trivial, ?_, by simp, by simp⟩
  rw [outcomesOf_append, outcomesOf_summary,
    outcomesOf_flatten_single (worktree_item_trace B force)
      (outcomesOf_worktree_item B force) ws]
  simp

theorem delete_local_branches_spec (B : Backend) (bs : List String) (force : Bool) :
    (delete_local_branches B bs force).result = Except.ok ()
    ∧ outcomesOf (delete_local_branches B bs force).trace
        = bs.map (fun b => B.runGit ["branch", if force then "-D" else "-d", b])
    ∧ (delete_local_branches B bs force).deleted
        = ((bs.map (fun b => B.runGit ["branch", if force then "-D" else "-d", b])).filter
            isSuccess).length
    ∧ (delete_local_branches B bs force).failed
        = ((bs.map (fun b => B.runGit ["branch", if force then "-D" else "-d", b])).filter
            (fun r => !isSuccess r)).length := by
  simp only [delete_local_branches,
    delete_local_branches_go_eq B (if force then "-D" else "-d") bs 0 0]
  refine ⟨trivial, ?_, by simp, by simp⟩
  rw [outcomesOf_append, outcomesOf_summary,
    outcomesOf_flatten_single _ (outcomesOf_local_item B (if force then "-D" else "-d")) bs]
  simp

theorem delete_remote_branches_spec (B : Backend) (bs : List String) (remote : String) :
    (delete_remote_branches B bs remote).result = Except.ok ()
    ∧ outcomesOf (delete_remote_branches B bs remote).trace
        = bs.map (fun b => B.runGit ["push", remote, "--delete", b])
    ∧ (delete_remote_branches B bs remote).deleted
        = ((bs.map (fun b => B.runGit ["push", remote, "--delete", b])).filter
            isSuccess).length
    ∧ (delete_remote_branches B bs remote).failed
        = ((bs.map (fun b => B.runGit ["push", remote, "--delete", b])).filter
            (fun r => !isSuccess r)).length := by
  simp only [delete_remote_branches, delete_remote_branches_go_eq B remote bs 0 0]
  refine ⟨trivial, ?_, by simp, by simp⟩
  rw [outcomesOf_append, outcomesOf_summary,
    outcomesOf_flatten_single _ (outcomesOf_remote_item B remote) bs]
  simp


/-- C4: batch deletion is failure tolerant for all three resource kinds:
every listed item is attempted exactly once in the given order, the
reported counters equal the numbers of successful and failed outcomes,
and the batch function returns success even when failures occurred. -/
theorem C4_batch_failure_tolerance (B : Backend) (worktrees branches rbranches : List String)
    (force : Bool) (remote : String) :
    ((delete_worktrees B worktrees force).result = Except.ok ()
      ∧ outcomesOf (delete_worktrees B worktrees force).trace
          = worktrees.map (worktree_outcome B force)
      ∧ (delete_worktrees B worktrees force).deleted
          = ((worktrees.map (worktree_outcome B force)).filter isSuccess).length
      ∧ (delete_worktrees B worktrees force).failed
          = ((worktrees.map (worktree_outcome B force)).filter
              (fun r => !isSuccess r)).length)
    ∧ ((delete_local_branches B branches force).result = Except.ok ()
      ∧ outcomesOf (delete_local_branches B branches force).trace
          = branches.map (fun b => B.runGit ["branch", if force then "-D" else "-d", b])
      ∧ (delete_local_branches B branches force).deleted
          = ((branches.map (fun b =>
              B.runGit ["branch", if force then "-D" else "-d", b])).filter
              isSuccess).length
      ∧ (delete_local_branches B branches force).failed
          = ((branches.map (fun b =>
              B.runGit ["branch", if force then "-D" else "-d", b])).filter
              (fun r => !isSuccess r)).length)
    ∧ ((delete_remote_branches B rbranches remote).result = Except.ok ()
      ∧ outcomesOf (delete_remote_branches B rbranches remote).trace
          = rbranches.map (fun b => B.runGit ["push", remote, "--delete", b])
      ∧ (delete_remote_branches B rbranches remote).deleted
          = ((rbranches.map (fun b => B.runGit ["push", remote, "--delete", b])).filter
              isSuccess).length
      ∧ (delete_remote_branches B rbranches remote).failed
          = ((rbranches.map (fun b => B.runGit ["push", remote, "--delete", b])).filter
              (fun r => !isSuccess r)).length) :=
  ⟨delete_worktrees_spec B worktrees force,
   delete_local_branches_spec B branches force,
   delete_remote_branches_spec B rbranches remote⟩

/-- C10: every batch deletion produces exactly one outcome per input
name, and the reported succeeded plus failed counters equal the length
of the input list, for all three resource kinds. -/
theorem C10_outcome_conservation (B : Backend) (worktrees branches rbranches : List String)
    (force : Bool) (remote : String) :
    (outcomesOf (delete_worktrees B worktrees force).trace).length = worktrees.length
    ∧ (delete_worktrees B worktrees force).deleted
        + (delete_worktrees B worktrees force).failed = worktrees.length
    ∧ (outcomesOf (delete_local_branches B branches force).trace).length = branches.length
    ∧ (delete_local_branches B branches force).deleted
        + (delete_local_branches B branches force).failed = branches.length
    ∧ (outcomesOf (delete_remote_branches B rbranches remote).trace).length = rbranches.length
    ∧ (delete_remote_branches B rbranches remote).deleted
        + (delete_remote_branches B rbranches remote).failed = rbranches.length := by
  obtain ⟨-, h2, h3, h4⟩ := delete_worktrees_spec B worktrees force
  obtain ⟨-, g2, g3, g4⟩ := delete_local_branches_spec B branches force
  obtain ⟨-, k2, k3, k4⟩ := delete_remote_branches_spec B rbranches remote
  refine ⟨?_, ?_, ?_, ?_, ?_, ?_⟩
  · rw [h2, List.length_map]
  · rw [h3, h4, length_filter_add_length_filter_not, List.length_map]
  · rw [g2, List.length_map]
  · rw [g3, g4, length_filter_add_length_filter_not, List.length_map]
  · rw [k2, List.length_map]
  · rw [k3, k4, length_filter_add_length_filter_not, List.length_map]

theorem get_existing_worktrees_pair (B : Backend) (worktrees : List String)
    (hw : (get_existing_worktrees B).2 = Except.ok worktrees) :
    get_existing_worktrees B = ([Event.listWorktrees], Except.ok worktrees) := by
  rw [← hw]
  rfl

/-- C5 counterexample: a clean operation with an invalid pattern does not
always fail with an invalid-pattern error: when the listing is empty the
pattern is never compiled and the operation reports success. -/
theorem C5_counterexample :
    emptyRepoBackend.compile "(" = Except.error "unclosed group"
    ∧ (clean_local_branches_by_pattern emptyRepoBackend "(" false true false).2 = Except.ok ()
    ∧ (clean_worktrees emptyRepoBackend (some "(") false true false).2 = Except.ok () :=
  ⟨rfl, rfl, rfl⟩

/-- C5 (amended): when the listing succeeds and is non-empty, a clean
operation with an invalid pattern fails with an invalid-pattern error
after the listing side effect but before any deletion or output side
effect (the trace is exactly the listing event); when the listing is
empty the invalid pattern goes unreported and the operation returns
success. -/
theorem C5_invalid_pattern (B B2 : Backend) (pattern e e2 : String)
    (branches worktrees : List String) (force dry_run json : Bool)
    (hc : B.compile pattern = Except.error e)
    (hb : B.localBranches = Except.ok branches) (hbne : branches ≠ [])
    (hw : (get_existing_worktrees B).2 = Except.ok worktrees) (hwne : worktrees ≠ [])
    (hc2 : B2.compile pattern = Except.error e2)
    (hb2 : B2.localBranches = Except.ok []) :
    clean_local_branches_by_pattern B pattern force dry_run json
      = ([Event.listLocalBranches], Except.error ("Invalid regex pattern: " ++ e))
    ∧ clean_worktrees B (some pattern) force dry_run json
      = ([Event.listWorktrees], Except.error ("Invalid regex pattern: " ++ e))
    ∧ (clean_local_branches_by_pattern B2 pattern force dry_run json).2 = Except.ok () := by
  have hkeep : B2.compile pattern = Except.error e2 := hc2
  refine ⟨?_, ?_, ?_⟩
  · simp only [clean_local_branches_by_pattern, get_local_branches, hb, hc]
    simp [hbne]
  · simp only [clean_worktrees, get_existing_worktrees_pair B worktrees hw,
      clean_worktrees_by_pattern, hc]
    simp [hwne]
  · simp only [clean_local_branches_by_pattern, get_local_branches, hb2]
    simp

/-- Witness for C5 (amended) at the two concrete failing-compile
backends. -/
theorem C5_invalid_pattern_witness :
    clean_local_branches_by_pattern invalidPatternBackend "(" false true false
      = ([Event.listLocalBranches], Except.error ("Invalid regex pattern: " ++ "unclosed group"))
    ∧ clean_worktrees invalidPatternBackend (some "(") false true false
      = ([Event.listWorktrees], Except.error ("Invalid regex pattern: " ++ "unclosed group"))
    ∧ (clean_local_branches_by_pattern emptyRepoBackend "(" false true false).2
      = Except.ok () :=
  C5_invalid_pattern invalidPatternBackend emptyRepoBackend "(" "unclosed group"
    "unclosed group" ["feature/a"] ["feature-w"] false true false rfl rfl (by decide)
    rfl (by decide) rfl rfl

theorem clean_worktrees_interactive_prompts (B : Backend) (wts : List String) (force : Bool) :
    ∃ t, (clean_worktrees_interactive B wts force).1 = Event.promptMultiSelect :: t := by
  unfold clean_worktrees_interactive interactive_multi_select
  cases B.multiSelect with
  | none => exact ⟨_, rfl⟩
  | some s =>
    by_cases hs : s.isEmpty
    · simp only [hs, Bool.not_true, Bool.false_eq_true, if_false]
      exact ⟨_, rfl⟩
    · simp only [hs, Bool.not_false, if_true]
      split
      · split
        · exact ⟨_, rfl⟩
        · exact ⟨_, rfl⟩
      · exact ⟨_, rfl⟩

/-- C6 counterexample: an invocation of clean worktrees with no pattern
and no dry run on a process without a terminal does not fail fast with
the requires-terminal error: the selection interface is reached (the
multi-select prompt appears in the trace) and the command returns
success. -/
theorem C6_counterexample :
    nonTerminalBackend.isTerminal = false
    ∧ Event.promptMultiSelect ∈ (clean_worktrees nonTerminalBackend none false false false).1
    ∧ (clean_worktrees nonTerminalBackend none false false false).2 = Except.ok () :=
  ⟨rfl, by decide, rfl⟩

/-- C6 (amended): only the top-level no-subcommand interactive menu
checks for a terminal — invoked without one it fails with the
requires-terminal error before any prompt or backend call; a clean
subcommand without a pattern and without dry-run reaches the selection
interface with no prior terminal check. -/
theorem C6_terminal_check (B : Backend) (script : List (Option Nat × Option Nat × String))
    (worktrees : List String) (force : Bool)
    (ht : B.isTerminal = false)
    (hw : (get_existing_worktrees B).2 = Except.ok worktrees) (hwne : worktrees ≠ []) :
    interactive_menu B script = ([], Except.error requires_terminal_message)
    ∧ Event.promptMultiSelect ∈ (clean_worktrees B none force false false).1 := by
  constructor
  · simp [interactive_menu, ht]
  · simp only [clean_worktrees, get_existing_worktrees_pair B worktrees hw]
    obtain ⟨t, hidden⟩ := clean_worktrees_interactive_prompts B worktrees force
    simp [hwne, hidden]

/-- Witness for C6 (amended) at the concrete non-terminal backend. -/
theorem C6_terminal_check_witness :
    interactive_menu nonTerminalBackend [] = ([], Except.error requires_terminal_message)
    ∧ Event.promptMultiSelect
        ∈ (clean_worktrees nonTerminalBackend none false false false).1 :=
  C6_terminal_check nonTerminalBackend [] ["feature-w"] false rfl rfl (by decide)

/-- C7: whenever the deletable set is empty — from an empty listing, a
pattern matching nothing, or every match being protected — the JSON
rendering emitted in JSON dry-run mode is exactly the single line [],
for branch and worktree clean operations alike. -/
theorem C7_empty_json_array (B : Backend) (pattern : String) (isMatch : String → Bool)
    (branches worktrees : List String) (force : Bool)
    (hc : B.compile pattern = Except.ok isMatch)
    (hb : B.localBranches = Except.ok branches)
    (hdel : (branches.filter isMatch).filter (fun b => !is_protected_branch B.env b) = [])
    (hwm : worktrees.filter isMatch = []) :
    print_json_array [] = "[]"
    ∧ outputsOf (clean_local_branches_by_pattern B pattern force true true).1 = ["[]"]
    ∧ outputsOf (clean_worktrees_by_pattern B pattern worktrees force true true).1 = ["[]"] := by
  refine ⟨rfl, ?_, ?_⟩
  · rw [local_dry_run_spec B pattern isMatch branches force true hc hb, hdel]
    rfl
  · rw [worktree_dry_run_spec B pattern isMatch worktrees force true hc, hwm]
    rfl

/-- Witness for C7 at the concrete demo backend: every local branch
matching the pattern main is protected, and no worktree matches. -/
theorem C7_empty_json_array_witness :
    print_json_array [] = "[]"
    ∧ outputsOf (clean_local_branches_by_pattern demoBackend "main" false true true).1 = ["[]"]
    ∧ outputsOf
        (clean_worktrees_by_pattern demoBackend "main" ["feature-w"] false true true).1
      = ["[]"] :=
  C7_empty_json_array demoBackend "main" (subStrMatcher "main") ["feature/a", "main"]
    ["feature-w"] false rfl rfl (by decide) (by decide)

/-- C8: every name in the worktree listing offered for cleaning differs
from the literal bare, is non-empty, and differs from the basename of
the current working directory — the current worktree is excluded from
every clean-worktrees operation. -/
theorem C8_worktree_listing_exclusions (B : Backend) (names : List String) (n : String)
    (h : (get_existing_worktrees B).2 = Except.ok names) (hn : n ∈ names) :
    n ≠ "bare" ∧ n ≠ "" ∧ n ≠ (rustFileName B.currentDir).getD "" := by
  cases hB : B.worktreeListLines with
  | error e =>
    exfalso
    simp [get_existing_worktrees, hB] at h
  | ok lines =>
    simp only [get_existing_worktrees, hB, Except.ok.injEq] at h
    subst h
    have hmem := List.mem_filter.mp hn
    have hcond := hmem.2
    simp only [Bool.and_eq_true, bne_iff_ne, ne_eq, Bool.not_eq_true',
      beq_eq_false_iff_ne] at hcond
    exact ⟨hcond.1.1, hcond.1.2, hcond.2⟩

/-- Witness for C8 at the concrete invalid-pattern backend, whose
listing yields the single worktree name feature-w. -/
theorem C8_worktree_listing_exclusions_witness :
    "feature-w" ≠ "bare" ∧ "feature-w" ≠ ""
    ∧ "feature-w" ≠ (rustFileName invalidPatternBackend.currentDir).getD "" :=
  C8_worktree_listing_exclusions invalidPatternBackend ["feature-w"] "feature-w" rfl
    (by decide)

theorem not_startsWith_slash (r p : String) (hs : ('/' : Char) ∉ r.data) :
    strStartsWith r (p ++ "/") = false := by
  by_contra hb
  have h1 : (p ++ "/").data.isPrefixOf r.data = true := by
    simpa [strStartsWith] using hb
  have hpre : (p ++ "/").data <+: r.data := by
    exact List.isPrefixOf_iff_prefix.mp h1
  have hmem : ('/' : Char) ∈ (p ++ "/").data := by
    simp [String.data_append]
  exact hs (hpre.subset hmem)

theorem parse_local_of_no_slash (r : String) (hs : ('/' : Char) ∉ r.data) :
    ∀ remotes : List String, parse_branch_pattern remotes r = (BranchScope.Local, r) := by
  intro remotes
  induction remotes with
  | nil => rfl
  | cons r2 rest ih =>
    simp only [parse_branch_pattern, not_startsWith_slash r r2 hs]
    exact ih

theorem parse_remote_startsWith (pattern remote stripped : String) :
    ∀ remotes : List String,
      parse_branch_pattern remotes pattern = (BranchScope.Remote remote, stripped)
      → strStartsWith pattern (remote ++ "/") = true := by
  intro remotes
  induction remotes with
  | nil => intro hp; simp [parse_branch_pattern] at hp
  | cons r2 rest ih =>
    intro hp
    simp only [parse_branch_pattern] at hp
    cases h : strStartsWith pattern (r2 ++ "/") with
    | true =>
      simp [h] at hp
      obtain ⟨h1, h2⟩ := hp
      subst h1
      exact h
    | false =>
      simp [h] at hp
      exact ih hp

/-- C9: a pattern that is exactly a configured remote name with no
trailing slash resolves to the local scope with the pattern unchanged
(git remote names contain no slash, captured by the slash-free
hypothesis), and only patterns strictly beginning with the remote name
followed by a slash resolve to that remote scope. -/
theorem C9_exact_remote_name (remotes : List String) (r : String)
    (hr : r ∈ remotes) (hs : ('/' : Char) ∉ r.data) :
    parse_branch_pattern remotes r = (BranchScope.Local, r)
    ∧ ∀ pattern remote stripped,
        parse_branch_pattern remotes pattern = (BranchScope.Remote remote, stripped)
        → strStartsWith pattern (remote ++ "/") = true := by
  have hkeep : r ∈ remotes := hr
  exact ⟨parse_local_of_no_slash r hs remotes,
    fun pattern remote stripped hp => parse_remote_startsWith pattern remote stripped remotes hp⟩

/-- Witness for C9: the pattern origin against the remotes origin and
upstream resolves to local scope, while origin/x resolves to the origin
remote because it starts with origin followed by a slash. -/
theorem C9_exact_remote_name_witness :
    parse_branch_pattern ["origin", "upstream"] "origin" = (BranchScope.Local, "origin")
    ∧ strStartsWith "origin/x" ("origin" ++ "/") = true :=
  ⟨(C9_exact_remote_name ["origin", "upstream"] "origin" (by decide) (by decide)).1,
   (C9_exact_remote_name ["origin", "upstream"] "origin" (by decide) (by decide)).2
     "origin/x" "origin" "x" (by decide)⟩

end Killallgit
